import Mathlib

/-!
Verification development for the urban-occupants TUS preprocessing pipeline.

The development shallowly embeds the code of
`urbanoccupants/tus.py` (mapping tables and feature filters) and
`scripts/tus/seed.py` (row transformer and household validator).
Python dictionaries become association lists in source order; a dictionary
value of `np.nan` becomes `none`; applying a mapping to a raw code follows
the pandas `Series.map` semantics (missing key yields NaN, i.e. `none`).
Raw survey codes are the enumeration members of the external `pytus2000`
data dictionaries; only the members that the source code names are embedded,
plus, per enumeration, one `OTHER_CODE` member standing for any further code
of the external data dictionary (the data dictionaries are not part of this
repository).  A pandas DataFrame is embedded as a list of rows; the parts of
the frame a function never reads are left out of its row type.
-/

/-! ## Study enumerations (from urbanoccupants.types, as used by tus.py) -/

/-- Simplified TUS 2000 locations (tus.py, class Location). -/
inductive Location where
  | HOME
  | OTHER_HOME
  | WORK_OR_SCHOOL
  | RESTO
  | SPORTS_FACILITY
  | ARTS_OR_CULTURAL_CENTRE
  | OUTSIDE
  | TRAVELLING
  | IMPLICIT
deriving DecidableEq, Fintype

/-- Household type categories of the study, as referenced by tus.py and seed.py. -/
inductive HouseholdType where
  | ONE_PERSON_HOUSEHOLD
  | COUPLE_WITHOUT_DEPENDENT_CHILDREN
  | COUPLE_WITH_DEPENDENT_CHILDREN
  | LONE_PARENT_WITH_DEPENDENT_CHILDREN
  | MULTI_PERSON_HOUSEHOLD
deriving DecidableEq, Fintype

/-- Age band categories of the study, as referenced by AGE_MAP. -/
inductive AgeStructure where
  | AGE_8_TO_9
  | AGE_10_TO_14
  | AGE_15
  | AGE_16_TO_17
  | AGE_18_TO_19
  | AGE_20_TO_24
  | AGE_25_TO_29
  | AGE_30_TO_44
  | AGE_45_TO_59
  | AGE_60_TO_64
  | AGE_65_TO_74
  | AGE_75_TO_84
  | AGE_85_TO_89
  | AGE_90_AND_OVER
deriving DecidableEq, Fintype

/-- Economic activity categories of the study, as referenced by ECONOMIC_ACTIVITY_MAP. -/
inductive EconomicActivity where
  | EMPLOYEE_FULL_TIME
  | EMPLOYEE_PART_TIME
  | SELF_EMPLOYED
  | UNEMPLOYED
  | RETIRED
  | LONG_TERM_SICK
  | INACTIVE_FULL_TIME_STUDENT
  | LOOKING_AFTER_HOME
  | INACTIVE_OTHER
  | BELOW_16
deriving DecidableEq, Fintype

/-- Carer categories of the study, as referenced by CARER_MAP. -/
inductive Carer where
  | CARER
  | NO_CARER
deriving DecidableEq, Fintype

/-- Dwelling type categories of the study, as referenced by dwellingtype_map. -/
inductive DwellingType where
  | DETACHED_WHOLE_HOUSE_OR_BUNGALOW
  | SEMI_DETACHED_WHOLE_HOUSE_OR_BUNGALOW
  | TERRACED_WHOLE_HOUSE_OR_BUNGALOW
  | FLAT_PURPOSE_BUILT_BLOCK
  | FLAT_CONVERTED_OR_SHARED_HOUSE
  | CARAVAN
  | OTHER
deriving DecidableEq, Fintype

/-! ## Raw survey codes (pytus2000 data-dictionary members named by the source) -/

/-- Raw diary location codes (pytus2000 diary.WHER_001) named in LOCATION_MAP.
The member written CAFÉ in the source is embedded as CAFE. -/
inductive WHER_001 where
  | MAIN_ACTVTY_EQUAL_SLEEPWORKSTUDY___NO_CODE_REQUIRED
  | _MISSING
  | MISSING2
  | _UNSPECIFIED_LOCATION
  | _UNSPECIFIED_LOCATION_NOT_TRAVELLING
  | _HOME
  | _SECOND_HOME_OR_WEEKEND_HOUSE
  | _WORKING_PLACE_OR_SCHOOL
  | _OTHER_PEOPLE_S_HOME
  | _RESTAURANT__CAFE_OR_PUB
  | _SPORTS_FACILITY
  | _WHER_001__ARTS_OR_CULTURAL_CENTRE
  | _THE_COUNTRY_COUNTRYSIDE__SEASIDE__BEACH_OR_COAST
  | _OTHER_SPECIFIED_LOCATION_NOT_TRAVELLING
  | _UNSPECIFIED_PRIVATE_TRANSPORT_MODE
  | _TRAVELLING_ON_FOOT
  | _TRAVELLING_BY_BICYCLE
  | _TRAVELLING_BY_MOPED__MOTORCYCLE_OR_MOTORBOAT
  | _TRAVELLING_BY_PASSENGER_CAR_AS_THE_DRIVER
  | _TRAVELLING_BY_PASSENGER_CAR_AS_A_PASSENGER
  | _TRAVELLING_BY_PASSENGER_CAR_DRIVER_STATUS_UNSPECIFIED
  | _TRAVELLING_BY_LORRY__OR_TRACTOR
  | _TRAVELLING_BY_VAN
  | _OTHER_SPECIFIED_PRIVATE_TRAVELLING_MODE
  | _UNSPECIFIED_PUBLIC_TRANSPORT_MODE
  | _TRAVELLING_BY_TAXI
  | _TRAVELLING_BY_BUS
  | _TRAVELLING_BY_TRAM_OR_UNDERGROUND
  | _TRAVELLING_BY_TRAIN
  | _TRAVELLING_BY_AEROPLANE
  | _TRAVELLING_BY_BOAT_OR_SHIP
  | _WHER_001__TRAVELLING_BY_COACH
  | _WAITING_FOR_PUBLIC_TRANSPORT
  | _OTHER_SPECIFIED_PUBLIC_TRANSPORT_MODE
  | _UNSPECIFIED_TRANSPORT_MODE
  | _ILLEGIBLE_LOCATION_OR_TRANSPORT_MODE
deriving DecidableEq, Fintype

/-- Raw economic activity codes (pytus2000 individual.ECONACT2) named in
ECONOMIC_ACTIVITY_MAP. -/
inductive ECONACT2 where
  | ECON_ACTIVE___EMPLOYEE___FULL_TIME
  | ECON_INACTIVE___LONG_TERM_SICK_DISABLED
  | ECON_INACTIVE___OTHER_REASONS_EG_TEMP_SICK__BELIEVES_NO_JOBS
  | ECON_INACTIVE___DK_REASONS
  | ADULT___NOT_CLASSIFIABLE_EITHER_EMP__UNEMP_OR_INACTIVE
  | UNDER_16YRS___INELIGIBLE_FOR_EMPLOYMENT_QUESTIONS
  | ECON_ACTIVE___EMPLOYEE___PART_TIME
  | ECON_ACTIVE___SELF_EMPLOYED___FULL_TIME
  | ECON_ACTIVE___SELF_EMPLOYED___PART_TIME
  | ECON_ACTIVE___DK_EMPSELFFULLPART
  | ECON_ACTIVE___UNEMPLOYED_ILO_DEFINITION
  | ECON_INACTIVE___RETIRED
  | ECON_INACTIVE___FULL_TIME_STUDENT
  | ECON_INACTIVE___LOOKING_AFTER_FAMILY_HOME
deriving DecidableEq, Fintype

/-- Raw carer codes (pytus2000 individual.PROVCARE) named in CARER_MAP. -/
inductive PROVCARE where
  | YES
  | NO
  | DKREFUSE
deriving DecidableEq, Fintype

/-- Raw accommodation kind codes (pytus2000 household.HQ13A) named in
dwellingtype_map.  OTHER_CODE stands for any further member of the external
data dictionary not named by the source. -/
inductive HQ13A where
  | A_HOUSE_OR_BUNGALOW
  | A_FLAT_OR_MAISONETTE
  | A_ROOMROOMS
  | OTHER
  | MISSING1
  | OTHER_CODE
deriving DecidableEq, Fintype

/-- Raw house kind codes (pytus2000 household.HQ13B) named in dwellingtype_map.
OTHER_CODE stands for any further member of the external data dictionary. -/
inductive HQ13B where
  | DETACHED
  | SEMI_DETACHED
  | OR_TERRACEEND_OF_TERRACE
  | OTHER_CODE
deriving DecidableEq, Fintype

/-- Raw flat kind codes (pytus2000 household.HQ13C) named in dwellingtype_map.
OTHER_CODE stands for any further member of the external data dictionary. -/
inductive HQ13C where
  | A_PURPOSE_BUILT_BLOCK
  | A_CONVERTED_HOUSESOME_OTHER_KIND_OF_BUILDING
  | OTHER_CODE
deriving DecidableEq, Fintype

/-- Raw other accommodation codes (pytus2000 household.HQ13D) named in
dwellingtype_map.  OTHER_CODE stands for any further member of the external
data dictionary. -/
inductive HQ13D where
  | A_CARAVAN__MOBILE_HOME_OR_HOUSEBOAT
  | SOME_OTHER_KIND_OF_ACCOMMODATION
  | OTHER_CODE
deriving DecidableEq, Fintype

/-! ## Mapping tables and their application -/

/-- Modelled from the spec: applying a per-feature code mapping follows the
pandas `Series.map(dict)` semantics used when the raw survey column is mapped
elementwise (the applying method `tus_value_to_uo_value` lives outside the
embedded sources): a key present in the dictionary yields its stored value
(which is itself `none` when the source stores `np.nan`), a key absent from
the dictionary silently yields NaN, i.e. `none`, and no exception is ever
raised. -/
def applyMap {α γ : Type} [DecidableEq α] : List (α × Option γ) → α → Option γ
  | [], _ => none
  | (k, v) :: rest, x => if x = k then v else applyMap rest x

/-- Keys of a mapping table, in source order. -/
def mapKeys {α γ : Type} (m : List (α × Option γ)) : List α :=
  m.map (fun p => p.1)

/-- LOCATION_MAP of tus.py, in source order; `np.nan` values become `none`. -/
def LOCATION_MAP : List (WHER_001 × Option Location) :=
  [(WHER_001.MAIN_ACTVTY_EQUAL_SLEEPWORKSTUDY___NO_CODE_REQUIRED, some Location.IMPLICIT),
   (WHER_001._MISSING, none),
   (WHER_001.MISSING2, none),
   (WHER_001._UNSPECIFIED_LOCATION, none),
   (WHER_001._UNSPECIFIED_LOCATION_NOT_TRAVELLING, none),
   (WHER_001._HOME, some Location.HOME),
   (WHER_001._SECOND_HOME_OR_WEEKEND_HOUSE, some Location.OTHER_HOME),
   (WHER_001._WORKING_PLACE_OR_SCHOOL, some Location.WORK_OR_SCHOOL),
   (WHER_001._OTHER_PEOPLE_S_HOME, some Location.OTHER_HOME),
   (WHER_001._RESTAURANT__CAFE_OR_PUB, some Location.RESTO),
   (WHER_001._SPORTS_FACILITY, some Location.SPORTS_FACILITY),
   (WHER_001._WHER_001__ARTS_OR_CULTURAL_CENTRE, some Location.ARTS_OR_CULTURAL_CENTRE),
   (WHER_001._THE_COUNTRY_COUNTRYSIDE__SEASIDE__BEACH_OR_COAST, some Location.OUTSIDE),
   (WHER_001._OTHER_SPECIFIED_LOCATION_NOT_TRAVELLING, none),
   (WHER_001._UNSPECIFIED_PRIVATE_TRANSPORT_MODE, some Location.TRAVELLING),
   (WHER_001._TRAVELLING_ON_FOOT, some Location.TRAVELLING),
   (WHER_001._TRAVELLING_BY_BICYCLE, some Location.TRAVELLING),
   (WHER_001._TRAVELLING_BY_MOPED__MOTORCYCLE_OR_MOTORBOAT, some Location.TRAVELLING),
   (WHER_001._TRAVELLING_BY_PASSENGER_CAR_AS_THE_DRIVER, some Location.TRAVELLING),
   (WHER_001._TRAVELLING_BY_PASSENGER_CAR_AS_A_PASSENGER, some Location.TRAVELLING),
   (WHER_001._TRAVELLING_BY_PASSENGER_CAR_DRIVER_STATUS_UNSPECIFIED, some Location.TRAVELLING),
   (WHER_001._TRAVELLING_BY_LORRY__OR_TRACTOR, some Location.TRAVELLING),
   (WHER_001._TRAVELLING_BY_VAN, some Location.TRAVELLING),
   (WHER_001._OTHER_SPECIFIED_PRIVATE_TRAVELLING_MODE, some Location.TRAVELLING),
   (WHER_001._UNSPECIFIED_PUBLIC_TRANSPORT_MODE, some Location.TRAVELLING),
   (WHER_001._TRAVELLING_BY_TAXI, some Location.TRAVELLING),
   (WHER_001._TRAVELLING_BY_BUS, some Location.TRAVELLING),
   (WHER_001._TRAVELLING_BY_TRAM_OR_UNDERGROUND, some Location.TRAVELLING),
   (WHER_001._TRAVELLING_BY_TRAIN, some Location.TRAVELLING),
   (WHER_001._TRAVELLING_BY_AEROPLANE, some Location.TRAVELLING),
   (WHER_001._TRAVELLING_BY_BOAT_OR_SHIP, some Location.TRAVELLING),
   (WHER_001._WHER_001__TRAVELLING_BY_COACH, some Location.TRAVELLING),
   (WHER_001._WAITING_FOR_PUBLIC_TRANSPORT, some Location.TRAVELLING),
   (WHER_001._OTHER_SPECIFIED_PUBLIC_TRANSPORT_MODE, some Location.TRAVELLING),
   (WHER_001._UNSPECIFIED_TRANSPORT_MODE, some Location.TRAVELLING),
   (WHER_001._ILLEGIBLE_LOCATION_OR_TRANSPORT_MODE, none)]

/-- ECONOMIC_ACTIVITY_MAP of tus.py, in source order. -/
def ECONOMIC_ACTIVITY_MAP : List (ECONACT2 × Option EconomicActivity) :=
  [(ECONACT2.ECON_ACTIVE___EMPLOYEE___FULL_TIME, some EconomicActivity.EMPLOYEE_FULL_TIME),
   (ECONACT2.ECON_INACTIVE___LONG_TERM_SICK_DISABLED, some EconomicActivity.LONG_TERM_SICK),
   (ECONACT2.ECON_INACTIVE___OTHER_REASONS_EG_TEMP_SICK__BELIEVES_NO_JOBS,
     some EconomicActivity.INACTIVE_OTHER),
   (ECONACT2.ECON_INACTIVE___DK_REASONS, some EconomicActivity.INACTIVE_OTHER),
   (ECONACT2.ADULT___NOT_CLASSIFIABLE_EITHER_EMP__UNEMP_OR_INACTIVE, none),
   (ECONACT2.UNDER_16YRS___INELIGIBLE_FOR_EMPLOYMENT_QUESTIONS,
     some EconomicActivity.BELOW_16),
   (ECONACT2.ECON_ACTIVE___EMPLOYEE___PART_TIME, some EconomicActivity.EMPLOYEE_PART_TIME),
   (ECONACT2.ECON_ACTIVE___SELF_EMPLOYED___FULL_TIME, some EconomicActivity.SELF_EMPLOYED),
   (ECONACT2.ECON_ACTIVE___SELF_EMPLOYED___PART_TIME, some EconomicActivity.SELF_EMPLOYED),
   (ECONACT2.ECON_ACTIVE___DK_EMPSELFFULLPART, none),
   (ECONACT2.ECON_ACTIVE___UNEMPLOYED_ILO_DEFINITION, some EconomicActivity.UNEMPLOYED),
   (ECONACT2.ECON_INACTIVE___RETIRED, some EconomicActivity.RETIRED),
   (ECONACT2.ECON_INACTIVE___FULL_TIME_STUDENT,
     some EconomicActivity.INACTIVE_FULL_TIME_STUDENT),
   (ECONACT2.ECON_INACTIVE___LOOKING_AFTER_FAMILY_HOME,
     some EconomicActivity.LOOKING_AFTER_HOME)]

/-- CARER_MAP of tus.py, in source order; the DKREFUSE code is stored as NaN. -/
def CARER_MAP : List (PROVCARE × Option Carer) :=
  [(PROVCARE.YES, some Carer.CARER),
   (PROVCARE.NO, some Carer.NO_CARER),
   (PROVCARE.DKREFUSE, none)]

/-- AGE_MAP of tus.py, in source order: integer ages 8 through 99. -/
def AGE_MAP : List (Nat × Option AgeStructure) :=
  [(8, some AgeStructure.AGE_8_TO_9),
   (9, some AgeStructure.AGE_8_TO_9),
   (10, some AgeStructure.AGE_10_TO_14),
   (11, some AgeStructure.AGE_10_TO_14),
   (12, some AgeStructure.AGE_10_TO_14),
   (13, some AgeStructure.AGE_10_TO_14),
   (14, some AgeStructure.AGE_10_TO_14),
   (15, some AgeStructure.AGE_15),
   (16, some AgeStructure.AGE_16_TO_17),
   (17, some AgeStructure.AGE_16_TO_17),
   (18, some AgeStructure.AGE_18_TO_19),
   (19, some AgeStructure.AGE_18_TO_19),
   (20, some AgeStructure.AGE_20_TO_24),
   (21, some AgeStructure.AGE_20_TO_24),
   (22, some AgeStructure.AGE_20_TO_24),
   (23, some AgeStructure.AGE_20_TO_24),
   (24, some AgeStructure.AGE_20_TO_24),
   (25, some AgeStructure.AGE_25_TO_29),
   (26, some AgeStructure.AGE_25_TO_29),
   (27, some AgeStructure.AGE_25_TO_29),
   (28, some AgeStructure.AGE_25_TO_29),
   (29, some AgeStructure.AGE_25_TO_29),
   (30, some AgeStructure.AGE_30_TO_44),
   (31, some AgeStructure.AGE_30_TO_44),
   (32, some AgeStructure.AGE_30_TO_44),
   (33, some AgeStructure.AGE_30_TO_44),
   (34, some AgeStructure.AGE_30_TO_44),
   (35, some AgeStructure.AGE_30_TO_44),
   (36, some AgeStructure.AGE_30_TO_44),
   (37, some AgeStructure.AGE_30_TO_44),
   (38, some AgeStructure.AGE_30_TO_44),
   (39, some AgeStructure.AGE_30_TO_44),
   (40, some AgeStructure.AGE_30_TO_44),
   (41, some AgeStructure.AGE_30_TO_44),
   (42, some AgeStructure.AGE_30_TO_44),
   (43, some AgeStructure.AGE_30_TO_44),
   (44, some AgeStructure.AGE_30_TO_44),
   (45, some AgeStructure.AGE_45_TO_59),
   (46, some AgeStructure.AGE_45_TO_59),
   (47, some AgeStructure.AGE_45_TO_59),
   (48, some AgeStructure.AGE_45_TO_59),
   (49, some AgeStructure.AGE_45_TO_59),
   (50, some AgeStructure.AGE_45_TO_59),
   (51, some AgeStructure.AGE_45_TO_59),
   (52, some AgeStructure.AGE_45_TO_59),
   (53, some AgeStructure.AGE_45_TO_59),
   (54, some AgeStructure.AGE_45_TO_59),
   (55, some AgeStructure.AGE_45_TO_59),
   (56, some AgeStructure.AGE_45_TO_59),
   (57, some AgeStructure.AGE_45_TO_59),
   (58, some AgeStructure.AGE_45_TO_59),
   (59, some AgeStructure.AGE_45_TO_59),
   (60, some AgeStructure.AGE_60_TO_64),
   (61, some AgeStructure.AGE_60_TO_64),
   (62, some AgeStructure.AGE_60_TO_64),
   (63, some AgeStructure.AGE_60_TO_64),
   (64, some AgeStructure.AGE_60_TO_64),
   (65, some AgeStructure.AGE_65_TO_74),
   (66, some AgeStructure.AGE_65_TO_74),
   (67, some AgeStructure.AGE_65_TO_74),
   (68, some AgeStructure.AGE_65_TO_74),
   (69, some AgeStructure.AGE_65_TO_74),
   (70, some AgeStructure.AGE_65_TO_74),
   (71, some AgeStructure.AGE_65_TO_74),
   (72, some AgeStructure.AGE_65_TO_74),
   (73, some AgeStructure.AGE_65_TO_74),
   (74, some AgeStructure.AGE_65_TO_74),
   (75, some AgeStructure.AGE_75_TO_84),
   (76, some AgeStructure.AGE_75_TO_84),
   (77, some AgeStructure.AGE_75_TO_84),
   (78, some AgeStructure.AGE_75_TO_84),
   (79, some AgeStructure.AGE_75_TO_84),
   (80, some AgeStructure.AGE_75_TO_84),
   (81, some AgeStructure.AGE_75_TO_84),
   (82, some AgeStructure.AGE_75_TO_84),
   (83, some AgeStructure.AGE_75_TO_84),
   (84, some AgeStructure.AGE_75_TO_84),
   (85, some AgeStructure.AGE_85_TO_89),
   (86, some AgeStructure.AGE_85_TO_89),
   (87, some AgeStructure.AGE_85_TO_89),
   (88, some AgeStructure.AGE_85_TO_89),
   (89, some AgeStructure.AGE_85_TO_89),
   (90, some AgeStructure.AGE_90_AND_OVER),
   (91, some AgeStructure.AGE_90_AND_OVER),
   (92, some AgeStructure.AGE_90_AND_OVER),
   (93, some AgeStructure.AGE_90_AND_OVER),
   (94, some AgeStructure.AGE_90_AND_OVER),
   (95, some AgeStructure.AGE_90_AND_OVER),
   (96, some AgeStructure.AGE_90_AND_OVER),
   (97, some AgeStructure.AGE_90_AND_OVER),
   (98, some AgeStructure.AGE_90_AND_OVER),
   (99, some AgeStructure.AGE_90_AND_OVER)]

/-- The dwelling type decision function of tus.py (`dwellingtype_map`).
Python control flow is mirrored exactly: each branch that returns a category
becomes `some`, the `MISSING1` branch returns NaN (`none`), and every path on
which the Python function falls through without a `return` statement yields
Python `None`, embedded as `none` as well. -/
def dwellingtype_map (row : HQ13A × HQ13B × HQ13C × HQ13D) : Option DwellingType :=
  let (hq13a, hq13b, hq13c, hq13d) := row
  if hq13a = HQ13A.A_HOUSE_OR_BUNGALOW then
    if hq13b = HQ13B.DETACHED then
      some DwellingType.DETACHED_WHOLE_HOUSE_OR_BUNGALOW
    else if hq13b = HQ13B.SEMI_DETACHED then
      some DwellingType.SEMI_DETACHED_WHOLE_HOUSE_OR_BUNGALOW
    else if hq13b = HQ13B.OR_TERRACEEND_OF_TERRACE then
      some DwellingType.TERRACED_WHOLE_HOUSE_OR_BUNGALOW
    else none
  else if hq13a = HQ13A.A_FLAT_OR_MAISONETTE then
    if hq13c = HQ13C.A_PURPOSE_BUILT_BLOCK then
      some DwellingType.FLAT_PURPOSE_BUILT_BLOCK
    else if hq13c = HQ13C.A_CONVERTED_HOUSESOME_OTHER_KIND_OF_BUILDING then
      some DwellingType.FLAT_CONVERTED_OR_SHARED_HOUSE
    else none
  else if hq13a = HQ13A.OTHER then
    if hq13d = HQ13D.A_CARAVAN__MOBILE_HOME_OR_HOUSEBOAT then
      some DwellingType.CARAVAN
    else if hq13d = HQ13D.SOME_OTHER_KIND_OF_ACCOMMODATION then
      some DwellingType.OTHER
    else none
  else if hq13a = HQ13A.MISSING1 then
    none
  else if hq13a = HQ13A.A_ROOMROOMS then
    some DwellingType.OTHER
  else none

/-! ## Household validator (scripts/tus/seed.py, _filter_invalid_households)

The seed table is embedded as a list of rows.  The validator reads only the
index levels SN1 and SN2 and the household-type column, and drops whole rows,
so a row is embedded by exactly those fields.  In
`households = hh_groups[...].agg(['first', 'count'])` the pandas `first`
aggregation takes the first non-null value of the group and `count` counts the
non-null values; after the rename the columns are `type` and `count`.  The
expression `households.size` in the validator is therefore NOT a column of
that frame: attribute access resolves to the pandas `DataFrame.size` property,
the scalar number of cells of the frame, i.e. (number of households) * 2.
Each boolean comparison against it is a scalar, so each of the four masks is
either all of the rows with the given type or empty, and the `|` of the four
filtered frames has as index the union of their indexes, which is what
`seed.drop` receives. -/

/-- Row of the seed table as read by `_filter_invalid_households`: the index
levels SN1, SN2, SN3 and the mapped household-type column (NaN as `none`). -/
structure SeedEntry where
  sn1 : Nat
  sn2 : Nat
  sn3 : Nat
  householdType : Option HouseholdType
deriving DecidableEq

/-- Household key of a row: the (SN1, SN2) index levels the validator groups by. -/
def hhKey (r : SeedEntry) : Nat × Nat :=
  (r.sn1, r.sn2)

/-- Distinct household keys of the seed: the group-by index of `households`. -/
def householdKeys (seed : List SeedEntry) : List (Nat × Nat) :=
  (seed.map hhKey).dedup

/-- The pandas `first` aggregation on the household-type column of one group:
first non-null household type of the group, in row order. -/
def groupFirst (seed : List SeedEntry) (k : Nat × Nat) : Option HouseholdType :=
  ((seed.filter (fun r => decide (hhKey r = k))).filterMap (fun r => r.householdType)).head?

/-- Number of rows of one household group (the group size as the spec means it). -/
def memberCount (seed : List SeedEntry) (k : Nat × Nat) : Nat :=
  (seed.filter (fun r => decide (hhKey r = k))).length

/-- Value of the `households.size` expression of the validator: the pandas
`DataFrame.size` property of the two-column aggregate frame, that is the
number of households times 2. -/
def householdsFrameSize (seed : List SeedEntry) : Nat :=
  2 * (householdKeys seed).length

/-- Index of the `invalids` frame of the validator: the union of the indexes of
the four scalar-masked frames, in their source order. -/
def invalidHouseholdKeys (seed : List SeedEntry) : List (Nat × Nat) :=
  let ks := householdKeys seed
  let sz := householdsFrameSize seed
  (if sz ≤ 2 then
     ks.filter (fun k =>
       decide (groupFirst seed k = some HouseholdType.COUPLE_WITH_DEPENDENT_CHILDREN))
   else []) ++
  (if sz ≠ 2 then
     ks.filter (fun k =>
       decide (groupFirst seed k = some HouseholdType.COUPLE_WITHOUT_DEPENDENT_CHILDREN))
   else []) ++
  (if sz < 2 then
     ks.filter (fun k =>
       decide (groupFirst seed k = some HouseholdType.LONE_PARENT_WITH_DEPENDENT_CHILDREN))
   else []) ++
  (if sz < 2 then
     ks.filter (fun k =>
       decide (groupFirst seed k = some HouseholdType.MULTI_PERSON_HOUSEHOLD))
   else [])

/-- The household validator `_filter_invalid_households` of seed.py:
`seed.drop(labels=invalids.index)` keeps exactly the rows whose (SN1, SN2)
key is not in the invalid index. -/
def filter_invalid_households (seed : List SeedEntry) : List SeedEntry :=
  seed.filter (fun r => decide (hhKey r ∉ invalidHouseholdKeys seed))

/-- Invalidity of one household according to the words of the spec (claim C1):
couple-with-children and size at most 2, couple-without-children and size
other than 2, lone-parent or multi-person and size below 2.  This definition
follows the spec, not the code, and is compared against the code. -/
def specInvalidHousehold (t : Option HouseholdType) (size : Nat) : Bool :=
  (decide (t = some HouseholdType.COUPLE_WITH_DEPENDENT_CHILDREN) && decide (size ≤ 2)) ||
  (decide (t = some HouseholdType.COUPLE_WITHOUT_DEPENDENT_CHILDREN) && decide (size ≠ 2)) ||
  (decide (t = some HouseholdType.LONE_PARENT_WITH_DEPENDENT_CHILDREN) && decide (size < 2)) ||
  (decide (t = some HouseholdType.MULTI_PERSON_HOUSEHOLD) && decide (size < 2))

/-- Failing input for claims C1 and C2: a couple-with-children household of
exactly two members, next to a couple-without-children household of exactly
two members. -/
def seedCoupleExample : List SeedEntry :=
  [⟨1, 1, 1, some HouseholdType.COUPLE_WITH_DEPENDENT_CHILDREN⟩,
   ⟨1, 1, 2, some HouseholdType.COUPLE_WITH_DEPENDENT_CHILDREN⟩,
   ⟨2, 1, 1, some HouseholdType.COUPLE_WITHOUT_DEPENDENT_CHILDREN⟩,
   ⟨2, 1, 2, some HouseholdType.COUPLE_WITHOUT_DEPENDENT_CHILDREN⟩]

/-! ## Feature filters (urbanoccupants/tus.py)

The seed handed to `filter_features_and_drop_nan` is a frame of individuals
indexed by (SN1, SN2, SN3) whose columns are the mapped feature columns; a
row is embedded as its key and its column values, `none` for NaN.  Selecting
`seed[features]` restricts each row to the chosen feature columns;
`dropna(axis='index', how='any')` then drops every row with at least one
missing value among them; the `assert` raises when nothing is left. -/

/-- Row of the seed frame of tus.py: individual key (SN1, SN2, SN3) and the
mapped feature columns by name, `none` for a missing (NaN) value. -/
structure PersonRow (V : Type) where
  key  : Nat × Nat × Nat
  vals : List (String × Option V)
deriving DecidableEq

/-- Value of one column of a row; a column that the row does not carry reads
as missing. -/
def colValue {V : Type} (r : PersonRow V) (c : String) : Option V :=
  match r.vals.lookup c with
  | some v => v
  | none => none

/-- Column selection `seed[features]` applied to one row: the row restricted
to the chosen feature columns, in the order the features are given. -/
def restrictRow {V : Type} (r : PersonRow V) (features : List String) : PersonRow V :=
  { key := r.key, vals := features.map (fun f => (f, colValue r f)) }

/-- Predicate of `dropna(how='any')`: the row survives when every column it
carries has a value. -/
def rowComplete {V : Type} (r : PersonRow V) : Bool :=
  r.vals.all (fun p => p.2.isSome)

/-- `filter_features_and_drop_nan` of tus.py: select the chosen features,
drop every individual with a missing value in any of them, and raise an
`AssertionError` (embedded as `Except.error`) when no row remains. -/
def filter_features_and_drop_nan {V : Type} (seed : List (PersonRow V))
    (features : List String) : Except String (List (PersonRow V)) :=
  let filtered_seed := (seed.map (fun r => restrictRow r features)).filter rowComplete
  if filtered_seed.length > 0 then
    Except.ok filtered_seed
  else
    Except.error ("Seed filtered by features " ++ String.intercalate ", " features ++
      " is empty.")

/-- Row of the markov time series of tus.py: index (SN1, SN2, SN3, daytype,
time_of_day) and the recorded value.  Dropping the `daytype` and
`time_of_day` levels leaves the individual key. -/
structure DiaryRow (V : Type) where
  indiv : Nat × Nat × Nat
  daytype : String
  time_of_day : Nat
  value : V
deriving DecidableEq

/-- `filter_features` of tus.py: filter the seed by the chosen features, keep
the diaries whose individuals are in the filtered seed, then keep the seed
individuals that occur in the remaining diaries. -/
def filter_features {V : Type} (seed : List (PersonRow V)) (markov_ts : List (DiaryRow V))
    (features : List String) : Except String (List (PersonRow V) × List (DiaryRow V)) := do
  let seed2 ← filter_features_and_drop_nan seed features
  let markov_ts2 := markov_ts.filter
    (fun d => decide (d.indiv ∈ seed2.map (fun r => r.key)))
  let seed3 := seed2.filter
    (fun r => decide (r.key ∈ markov_ts2.map (fun d => d.indiv)))
  pure (seed3, markov_ts2)

/-! ## Row transformer (scripts/tus/seed.py, _map_to_internal_types)

To settle the frame-effect claim the pandas objects are embedded with their
storage made explicit: a store is the list of allocated column arrays, and a
frame holds an index and named references (cell ids) into the store.  Every
pandas operation the transformer performs allocates fresh cells and never
writes an existing one: `pd.DataFrame(index=...)` allocates nothing,
`feature.tus_value_to_uo_value(...)` builds a new column from the raw column
and the age column, and `seed[name] = column` appends the new column to the
store and binds the name in the seed frame. -/

/-- A data frame: its row index and its named column references into the
store. -/
structure Frame where
  index : List (Nat × Nat × Nat)
  cols  : List (String × Nat)
deriving DecidableEq

/-- Modelled from the spec: a people or household feature of the study.  The
`PeopleFeature` and `HouseholdFeature` enumerations and their method
`tus_value_to_uo_value` live outside the embedded sources; per spec section
4.2 each feature carries the name of its raw TUS variable and replaces the
raw column elementwise (using the age column as well, as the call in
`_map_to_internal_types` passes it) by mapped values. -/
structure UOFeature (V : Type) where
  name : String
  tus_variable_name : String
  tus_value_to_uo_value : V → V → V

/-- Read a named column of a frame out of the store; a name the frame does
not carry, or a dangling reference, reads as the empty column (the
well-formedness hypotheses of the theorems rule those out). -/
def frameColumn {V : Type} (store : List (List V)) (f : Frame) (c : String) : List V :=
  match f.cols.lookup c with
  | some i => store.getD i []
  | none => []

/-- One iteration of the feature loop of `_map_to_internal_types`: compute
the mapped column from the raw column and the age column, allocate it, and
bind it in the seed frame under the feature name. -/
def mapStep {V : Type} (individual_data : Frame) (age : List V)
    (acc : List (List V) × Frame) (feature : UOFeature V) : List (List V) × Frame :=
  let (store, seed) := acc
  let newcol := (frameColumn store individual_data feature.tus_variable_name).zipWith
    feature.tus_value_to_uo_value age
  (store ++ [newcol], { index := seed.index, cols := seed.cols ++ [(feature.name, store.length)] })

/-- `_map_to_internal_types` of seed.py: read the IAGE column, build a new
frame over the input's index, and fill in one mapped column per feature. -/
def map_to_internal_types {V : Type} (features : List (UOFeature V))
    (store : List (List V)) (individual_data : Frame) : List (List V) × Frame :=
  let age := frameColumn store individual_data "IAGE"
  features.foldl (mapStep individual_data age) (store, { index := individual_data.index, cols := [] })

/-! ## Band structure of AGE_MAP -/

/-- The contiguous age bands declared by AGE_MAP: for each band its lowest
age, its highest age, and its category. -/
def AGE_BANDS : List (Nat × Nat × AgeStructure) :=
  [(8, 9, AgeStructure.AGE_8_TO_9),
   (10, 14, AgeStructure.AGE_10_TO_14),
   (15, 15, AgeStructure.AGE_15),
   (16, 17, AgeStructure.AGE_16_TO_17),
   (18, 19, AgeStructure.AGE_18_TO_19),
   (20, 24, AgeStructure.AGE_20_TO_24),
   (25, 29, AgeStructure.AGE_25_TO_29),
   (30, 44, AgeStructure.AGE_30_TO_44),
   (45, 59, AgeStructure.AGE_45_TO_59),
   (60, 64, AgeStructure.AGE_60_TO_64),
   (65, 74, AgeStructure.AGE_65_TO_74),
   (75, 84, AgeStructure.AGE_75_TO_84),
   (85, 89, AgeStructure.AGE_85_TO_89),
   (90, 99, AgeStructure.AGE_90_AND_OVER)]

/-! ## Concrete inputs used by the witness theorems -/

/-- A seed of one fully valued individual, for the filter witnesses. -/
def personRowExample : PersonRow Nat :=
  { key := (1, 1, 1), vals := [("Feature.AGE", some 5)] }

/-- A seed of one individual missing its only chosen feature. -/
def personRowMissingExample : PersonRow Nat :=
  { key := (1, 1, 2), vals := [("Feature.AGE", none)] }

/-- A diary row of the individual of `personRowExample`. -/
def diaryRowExample : DiaryRow Nat :=
  { indiv := (1, 1, 1), daytype := "weekday", time_of_day := 0, value := 7 }

/-- An input frame of one raw column for the row-transformer witnesses. -/
def frameExample : Frame :=
  { index := [(1, 1, 1), (1, 1, 2)], cols := [("IAGE", 0)] }

/-- The store backing `frameExample`. -/
def storeExample : List (List Nat) :=
  [[30, 40]]

/-- A feature reading the IAGE column, for the row-transformer witnesses. -/
def featureExample : UOFeature Nat :=
  { name := "Feature.AGE", tus_variable_name := "IAGE",
    tus_value_to_uo_value := fun v _ => v }

/-! ## Theorems -/

/-- Looking a key up in a mapping table that does not carry it yields the
missing value, as pandas `Series.map` does. -/
theorem applyMap_eq_none_of_not_mem {α γ : Type} [DecidableEq α] :
    ∀ (m : List (α × Option γ)) (k : α), k ∉ mapKeys m → applyMap m k = none := by
  intro m
  induction m with
  | nil => intro k _; rfl
  | cons hd tl ih =>
    intro k hk
    obtain ⟨k0, v0⟩ := hd
    simp only [mapKeys, List.map_cons, List.mem_cons, not_or] at hk
    obtain ⟨hk1, hk2⟩ := hk
    simp only [applyMap, if_neg hk1]
    exact ih k (by simpa [mapKeys] using hk2)

/-- On a table with pairwise distinct keys, looking up a key yields exactly
the value stored with it. -/
theorem applyMap_eq_of_mem {α γ : Type} [DecidableEq α] :
    ∀ (m : List (α × Option γ)), (mapKeys m).Nodup →
      ∀ (k : α) (v : Option γ), (k, v) ∈ m → applyMap m k = v := by
  intro m
  induction m with
  | nil => intro _ k v hv; cases hv
  | cons hd tl ih =>
    intro hnd k v hv
    obtain ⟨k0, v0⟩ := hd
    simp only [mapKeys, List.map_cons, List.nodup_cons] at hnd
    obtain ⟨hk0, hnd2⟩ := hnd
    rcases List.mem_cons.mp hv with heq | htl
    · cases heq
      simp [applyMap]
    · have hkeys : k ∈ mapKeys tl := List.mem_map.mpr ⟨(k, v), htl, rfl⟩
      have hkne : k ≠ k0 := by
        intro h
        exact hk0 (h ▸ hkeys)
      simp only [applyMap, if_neg hkne]
      exact ih (by simpa [mapKeys] using hnd2) k v htl

/-- C4: every per-feature code mapping is total with null as its fallback:
`dwellingtype_map` returns a dwelling category or null on every combination of
the four raw sub-attribute codes, and returns null on the missing code and on
any code outside its decision table; applying a mapping table yields the
stored category for its keys, null for the explicitly refused carer code, and
null for any raw code absent from the table, never an exception (the
embedding of `applyMap` has no failure outcome). -/
theorem c4_code_mappings_total :
    (∀ row : HQ13A × HQ13B × HQ13C × HQ13D,
       dwellingtype_map row = none ∨ ∃ d, dwellingtype_map row = some d) ∧
    (∀ b c d, dwellingtype_map (HQ13A.MISSING1, b, c, d) = none) ∧
    (∀ b c d, dwellingtype_map (HQ13A.OTHER_CODE, b, c, d) = none) ∧
    applyMap CARER_MAP PROVCARE.DKREFUSE = none ∧
    (∀ (α γ : Type) [DecidableEq α] (m : List (α × Option γ)) (k : α),
       k ∉ mapKeys m → applyMap m k = none) := by
  refine ⟨?_, by decide, by decide, by decide, ?_⟩
  · intro row
    rcases hrow : dwellingtype_map row with _ | d
    · exact Or.inl rfl
    · exact Or.inr ⟨d, rfl⟩
  · intro α γ _ m k hk
    exact applyMap_eq_none_of_not_mem m k hk

/-- Witness for C4 at concrete inputs: a carer table without the DKREFUSE key
maps it to null, and the missing accommodation code maps to null. -/
theorem c4_witness :
    applyMap [(PROVCARE.YES, some Carer.CARER)] PROVCARE.DKREFUSE = none ∧
    dwellingtype_map
      (HQ13A.MISSING1, HQ13B.DETACHED, HQ13C.A_PURPOSE_BUILT_BLOCK, HQ13D.OTHER_CODE) = none :=
  ⟨c4_code_mappings_total.2.2.2.2 PROVCARE Carer
      [(PROVCARE.YES, some Carer.CARER)] PROVCARE.DKREFUSE (by decide),
   c4_code_mappings_total.2.1 HQ13B.DETACHED HQ13C.A_PURPOSE_BUILT_BLOCK HQ13D.OTHER_CODE⟩

/-- Each declared age band of AGE_MAP maps every age of its range to its
category. -/
theorem age_band_value :
    ∀ b ∈ AGE_BANDS, ∀ a : Nat, a < 100 → b.1 ≤ a → a ≤ b.2.1 →
      applyMap AGE_MAP a = some b.2.2 := by
  decide

/-- Every declared age band ends below 100. -/
theorem age_band_high : ∀ b ∈ AGE_BANDS, b.2.1 < 100 := by
  decide

/-- AGE_MAP is defined on every age from 8 up to 99. -/
theorem age_map_defined :
    ∀ a : Nat, a < 100 → 8 ≤ a → (applyMap AGE_MAP a).isSome = true := by
  decide

/-- C6: the age mapping is a banded-range lookup: ages 8 and 9 map to the
AGE_8_TO_9 band, every age from 10 through 14 maps to AGE_10_TO_14, any two
ages inside one declared band's range map to the same category, and the
mapping is defined for every integer age from 8 through 99. -/
theorem c6_age_map_is_banded_lookup :
    applyMap AGE_MAP 8 = some AgeStructure.AGE_8_TO_9 ∧
    applyMap AGE_MAP 9 = some AgeStructure.AGE_8_TO_9 ∧
    (∀ a : Nat, 10 ≤ a → a ≤ 14 → applyMap AGE_MAP a = some AgeStructure.AGE_10_TO_14) ∧
    (∀ b ∈ AGE_BANDS, ∀ a1 a2 : Nat, b.1 ≤ a1 → a1 ≤ b.2.1 → b.1 ≤ a2 → a2 ≤ b.2.1 →
       applyMap AGE_MAP a1 = applyMap AGE_MAP a2) ∧
    (∀ a : Nat, 8 ≤ a → a ≤ 99 → (applyMap AGE_MAP a).isSome = true) := by
  refine ⟨by decide, by decide, ?_, ?_, ?_⟩
  · intro a h10 h14
    exact age_band_value (10, 14, AgeStructure.AGE_10_TO_14) (by decide) a
      (lt_of_le_of_lt h14 (by decide)) h10 h14
  · intro b hb a1 a2 ha1l ha1h ha2l ha2h
    have h100 : b.2.1 < 100 := age_band_high b hb
    rw [age_band_value b hb a1 (lt_of_le_of_lt ha1h h100) ha1l ha1h,
        age_band_value b hb a2 (lt_of_le_of_lt ha2h h100) ha2l ha2h]
  · intro a h8 h99
    exact age_map_defined a (Nat.lt_succ_of_le h99) h8

/-- Witness for C6 at concrete ages: 11 and 13 share one band's category, and
age 42 is mapped. -/
theorem c6_witness :
    applyMap AGE_MAP 11 = applyMap AGE_MAP 13 ∧ (applyMap AGE_MAP 42).isSome = true :=
  ⟨c6_age_map_is_banded_lookup.2.2.2.1 (10, 14, AgeStructure.AGE_10_TO_14) (by decide)
      11 13 (by decide) (by decide) (by decide) (by decide),
   c6_age_map_is_banded_lookup.2.2.2.2 42 (by decide) (by decide)⟩

/-- C8: the mapping tables are deterministic: the keys of
ECONOMIC_ACTIVITY_MAP and of LOCATION_MAP are pairwise distinct, a raw code
stored in a table is associated with exactly one category value, and looking
the code up yields exactly that stored value, so two applications of the
mapping to the same code agree. -/
theorem c8_mapping_tables_are_functions :
    (mapKeys ECONOMIC_ACTIVITY_MAP).Nodup ∧ (mapKeys LOCATION_MAP).Nodup ∧
    (∀ k v w, (k, v) ∈ ECONOMIC_ACTIVITY_MAP → (k, w) ∈ ECONOMIC_ACTIVITY_MAP → v = w) ∧
    (∀ k v w, (k, v) ∈ LOCATION_MAP → (k, w) ∈ LOCATION_MAP → v = w) ∧
    (∀ k v, (k, v) ∈ ECONOMIC_ACTIVITY_MAP → applyMap ECONOMIC_ACTIVITY_MAP k = v) ∧
    (∀ k v, (k, v) ∈ LOCATION_MAP → applyMap LOCATION_MAP k = v) := by
  have h1 : (mapKeys ECONOMIC_ACTIVITY_MAP).Nodup := by decide
  have h2 : (mapKeys LOCATION_MAP).Nodup := by decide
  refine ⟨h1, h2, ?_, ?_, ?_, ?_⟩
  · intro k v w hv hw
    rw [← applyMap_eq_of_mem _ h1 k v hv, applyMap_eq_of_mem _ h1 k w hw]
  · intro k v w hv hw
    rw [← applyMap_eq_of_mem _ h2 k v hv, applyMap_eq_of_mem _ h2 k w hw]
  · intro k v hv
    exact applyMap_eq_of_mem _ h1 k v hv
  · intro k v hv
    exact applyMap_eq_of_mem _ h2 k v hv

/-- Witness for C8 at a concrete code: looking up the retired code yields the
category stored with it. -/
theorem c8_witness :
    applyMap ECONOMIC_ACTIVITY_MAP ECONACT2.ECON_INACTIVE___RETIRED
      = some EconomicActivity.RETIRED :=
  c8_mapping_tables_are_functions.2.2.2.2.1 ECONACT2.ECON_INACTIVE___RETIRED
    (some EconomicActivity.RETIRED) (by decide)

/-- C1: the spec states a household is removed exactly when its first member's
type together with its member count is invalid (couple-with-children with at
most 2 members, couple-without-children with a count other than 2, lone-parent
or multi-person with fewer than 2 members).  The code diverges, because
`households.size` reads the pandas frame-size property instead of a member
count: on `seedCoupleExample` the couple-with-children household (1, 1) has 2
members and is spec-invalid, yet both of its rows survive the validator, while
the couple-without-children household (2, 1) has exactly 2 members and is
spec-valid, yet both of its rows are dropped. -/
theorem c1_household_validator_diverges_from_spec :
    specInvalidHousehold (groupFirst seedCoupleExample (1, 1))
        (memberCount seedCoupleExample (1, 1)) = true
    ∧ memberCount (filter_invalid_households seedCoupleExample) (1, 1) = 2
    ∧ specInvalidHousehold (groupFirst seedCoupleExample (2, 1))
        (memberCount seedCoupleExample (2, 1)) = false
    ∧ memberCount (filter_invalid_households seedCoupleExample) (2, 1) = 0 := by
  decide

/-- C2: the claimed post-filter invariant fails on the code: after the
validator runs on `seedCoupleExample`, the output still holds a household
whose first member's type is couple-with-dependent-children but which has
exactly 2 rows, not strictly more than 2. -/
theorem c2_post_filter_invariant_fails :
    groupFirst (filter_invalid_households seedCoupleExample) (1, 1)
      = some HouseholdType.COUPLE_WITH_DEPENDENT_CHILDREN
    ∧ memberCount (filter_invalid_households seedCoupleExample) (1, 1) = 2 := by
  decide

/-- The feature loop of the row transformer never touches the index of the
seed frame it accumulates. -/
theorem mapFold_index {V : Type} (d : Frame) (age : List V) :
    ∀ (fs : List (UOFeature V)) (acc : List (List V) × Frame),
      (fs.foldl (mapStep d age) acc).2.index = acc.2.index := by
  intro fs
  induction fs with
  | nil => intro acc; rfl
  | cons f rest ih =>
    intro acc
    obtain ⟨st, sd⟩ := acc
    rw [List.foldl_cons, ih]
    rfl

/-- The feature loop of the row transformer only appends to the store. -/
theorem mapFold_store_extend {V : Type} (d : Frame) (age : List V) :
    ∀ (fs : List (UOFeature V)) (acc : List (List V) × Frame),
      ∃ extra, (fs.foldl (mapStep d age) acc).1 = acc.1 ++ extra := by
  intro fs
  induction fs with
  | nil => intro acc; exact ⟨[], (List.append_nil acc.1).symm⟩
  | cons f rest ih =>
    intro acc
    obtain ⟨st, sd⟩ := acc
    rw [List.foldl_cons]
    obtain ⟨e, he⟩ := ih (mapStep d age (st, sd) f)
    refine ⟨((frameColumn st d f.tus_variable_name).zipWith f.tus_value_to_uo_value age) :: e, ?_⟩
    rw [he]
    simp [mapStep]

/-- Every column reference the feature loop adds points at or beyond the end
of the store it started from. -/
theorem mapFold_cols_fresh {V : Type} (d : Frame) (age : List V) :
    ∀ (fs : List (UOFeature V)) (acc : List (List V) × Frame),
      ∀ q ∈ (fs.foldl (mapStep d age) acc).2.cols, q ∈ acc.2.cols ∨ acc.1.length ≤ q.2 := by
  intro fs
  induction fs with
  | nil => intro acc q hq; exact Or.inl hq
  | cons f rest ih =>
    intro acc q hq
    obtain ⟨st, sd⟩ := acc
    rw [List.foldl_cons] at hq
    rcases ih (mapStep d age (st, sd) f) q hq with hmem | hge
    · rcases List.mem_append.mp hmem with hsd | hnew
      · exact Or.inl hsd
      · simp only [List.mem_singleton] at hnew
        subst hnew
        exact Or.inr (Nat.le_refl _)
    · have : st.length + 1 ≤ q.2 := by
        simpa [mapStep] using hge
      exact Or.inr (Nat.le_of_succ_le this)

/-- C3: the row transformer returns a table over exactly the index of its
input, so with exactly as many rows; mapping raw codes to categories never
drops a row. -/
theorem c3_row_transform_preserves_index {V : Type} (features : List (UOFeature V))
    (store : List (List V)) (individual_data : Frame) :
    (map_to_internal_types features store individual_data).2.index = individual_data.index ∧
    (map_to_internal_types features store individual_data).2.index.length
      = individual_data.index.length := by
  have h : (map_to_internal_types features store individual_data).2.index
      = individual_data.index := by
    unfold map_to_internal_types
    rw [mapFold_index]
  exact ⟨h, by rw [h]⟩

/-- C7: the row transformer has no side effect on its input: every store cell
an input column references holds the same data after the transformer ran, and
no column of the returned table references a cell of the input table, so the
output is newly constructed rather than a view of the input. -/
theorem c7_row_transformer_is_effect_free {V : Type} (features : List (UOFeature V))
    (store : List (List V)) (individual_data : Frame)
    (hwf : ∀ p ∈ individual_data.cols, p.2 < store.length) :
    (∀ p ∈ individual_data.cols,
       (map_to_internal_types features store individual_data).1[p.2]? = store[p.2]?) ∧
    (∀ p ∈ individual_data.cols,
       ∀ q ∈ (map_to_internal_types features store individual_data).2.cols, p.2 ≠ q.2) := by
  constructor
  · intro p hp
    obtain ⟨extra, hext⟩ := mapFold_store_extend individual_data
      (frameColumn store individual_data "IAGE") features
      (store, { index := individual_data.index, cols := [] })
    unfold map_to_internal_types
    rw [hext]
    exact List.getElem?_append_left (hwf p hp)
  · intro p hp q hq
    unfold map_to_internal_types at hq
    rcases mapFold_cols_fresh individual_data
      (frameColumn store individual_data "IAGE") features
      (store, { index := individual_data.index, cols := [] }) q hq with hmem | hge
    · cases hmem
    · exact Nat.ne_of_lt (Nat.lt_of_lt_of_le (hwf p hp) hge)

/-- Witness for C7 at a concrete store and frame: the raw column cell is
unchanged and the output frame references none of the input's cells. -/
theorem c7_witness :
    (∀ p ∈ frameExample.cols,
       (map_to_internal_types [featureExample] storeExample frameExample).1[p.2]?
         = storeExample[p.2]?) ∧
    (∀ p ∈ frameExample.cols,
       ∀ q ∈ (map_to_internal_types [featureExample] storeExample frameExample).2.cols,
         p.2 ≠ q.2) :=
  c7_row_transformer_is_effect_free [featureExample] storeExample frameExample (by decide)

/-- A restricted row survives `dropna` exactly when the original row has a
value in every chosen feature. -/
theorem restrict_complete_iff {V : Type} (r : PersonRow V) (features : List String) :
    rowComplete (restrictRow r features) = true ↔
      ∀ f ∈ features, colValue r f ≠ none := by
  simp [rowComplete, restrictRow, List.all_eq_true, Option.isSome_iff_ne_none]

/-- Reading a chosen column of a restricted row reads the original row. -/
theorem colValue_restrict {V : Type} (r : PersonRow V) :
    ∀ (features : List String) (f : String), f ∈ features →
      colValue (restrictRow r features) f = colValue r f := by
  intro features
  induction features with
  | nil => intro f hf; cases hf
  | cons g rest ih =>
    intro f hf
    by_cases hfg : f = g
    · subst hfg
      simp [colValue, restrictRow, List.lookup]
    · have hf2 : f ∈ rest := by
        rcases List.mem_cons.mp hf with h | h
        · exact absurd h hfg
        · exact h
      have hbeq : (f == g) = false := beq_eq_false_iff_ne.mpr hfg
      have h2 := ih f hf2
      simp only [colValue, restrictRow, List.map_cons, List.lookup, hbeq] at h2 ⊢
      exact h2

/-- The selected-and-dropped table is empty exactly when every input row
misses at least one chosen feature. -/
theorem filtered_eq_nil_iff {V : Type} (seed : List (PersonRow V)) (features : List String) :
    (seed.map (fun r => restrictRow r features)).filter rowComplete = [] ↔
      ∀ r ∈ seed, ∃ f ∈ features, colValue r f = none := by
  rw [List.filter_eq_nil_iff]
  constructor
  · intro h r hr
    have h2 := h (restrictRow r features) (List.mem_map_of_mem _ hr)
    by_contra hcon
    push_neg at hcon
    exact h2 ((restrict_complete_iff r features).mpr hcon)
  · rintro h x hx
    rcases List.mem_map.mp hx with ⟨r, hr, rfl⟩
    intro hcomp
    obtain ⟨f, hf, hnone⟩ := h r hr
    exact (restrict_complete_iff r features).mp hcomp f hf hnone

/-- C5: the feature filter raises an assertion error exactly when selecting
the chosen features and dropping every individual with a missing value leaves
zero rows — that is, when every input row misses some chosen feature — and
otherwise it returns the filtered table normally. -/
theorem c5_assertion_iff_empty_filter {V : Type} (seed : List (PersonRow V))
    (features : List String) :
    ((∃ e, filter_features_and_drop_nan seed features = Except.error e) ↔
       ∀ r ∈ seed, ∃ f ∈ features, colValue r f = none) ∧
    (∀ out, filter_features_and_drop_nan seed features = Except.ok out →
       out ≠ [] ∧ out = (seed.map (fun r => restrictRow r features)).filter rowComplete) := by
  have hdef : filter_features_and_drop_nan seed features =
      if ((seed.map (fun r => restrictRow r features)).filter rowComplete).length > 0 then
        Except.ok ((seed.map (fun r => restrictRow r features)).filter rowComplete)
      else
        Except.error ("Seed filtered by features " ++ String.intercalate ", " features ++
          " is empty.") := rfl
  by_cases hpos : ((seed.map (fun r => restrictRow r features)).filter rowComplete).length > 0
  · rw [if_pos hpos] at hdef
    refine ⟨⟨?_, ?_⟩, ?_⟩
    · rintro ⟨e, he⟩
      rw [hdef] at he
      cases he
    · intro hall
      rw [(filtered_eq_nil_iff seed features).mpr hall] at hpos
      cases hpos
    · intro out hout
      rw [hdef] at hout
      cases hout
      exact ⟨List.ne_nil_of_length_pos hpos, rfl⟩
  · rw [if_neg hpos] at hdef
    have hnil : (seed.map (fun r => restrictRow r features)).filter rowComplete = [] :=
      List.length_eq_zero.mp (Nat.eq_zero_of_not_pos hpos)
    refine ⟨⟨?_, ?_⟩, ?_⟩
    · intro _
      exact (filtered_eq_nil_iff seed features).mp hnil
    · intro _
      exact ⟨_, hdef⟩
    · intro out hout
      rw [hdef] at hout
      cases hout

/-- Witness for C5 at concrete inputs: on a seed whose only row misses the
only chosen feature the filter raises, and the raising characterization is
obtained by applying the theorem. -/
theorem c5_witness :
    ∃ e, filter_features_and_drop_nan [personRowMissingExample] ["Feature.AGE"]
      = Except.error e :=
  (c5_assertion_iff_empty_filter [personRowMissingExample] ["Feature.AGE"]).1.mpr
    (by decide)

/-- C9: on success the feature filter returns only rows with a value in every
chosen feature, and each returned row is an input row restricted to the
chosen feature columns. -/
theorem c9_filter_postcondition {V : Type} (seed : List (PersonRow V))
    (features : List String) (out : List (PersonRow V)) (_hne : features ≠ [])
    (hok : filter_features_and_drop_nan seed features = Except.ok out) :
    (∀ r ∈ out, ∀ f ∈ features, colValue r f ≠ none) ∧
    (∀ r ∈ out, ∃ r0 ∈ seed, r = restrictRow r0 features) := by
  obtain ⟨-, hout⟩ := (c5_assertion_iff_empty_filter seed features).2 out hok
  subst hout
  constructor
  · intro r hr f hf
    rcases List.mem_filter.mp hr with ⟨hmem, hcomp⟩
    rcases List.mem_map.mp hmem with ⟨r0, hr0, rfl⟩
    rw [colValue_restrict r0 features f hf]
    exact (restrict_complete_iff r0 features).mp hcomp f hf
  · intro r hr
    rcases List.mem_filter.mp hr with ⟨hmem, -⟩
    rcases List.mem_map.mp hmem with ⟨r0, hr0, rfl⟩
    exact ⟨r0, hr0, rfl⟩

/-- Witness for C9 at concrete inputs: the fully valued example row passes the
filter, keeps its only chosen feature valued, and is the restriction of an
input row. -/
theorem c9_witness :
    (∀ r ∈ [restrictRow personRowExample ["Feature.AGE"]],
       ∀ f ∈ ["Feature.AGE"], colValue r f ≠ none) ∧
    (∀ r ∈ [restrictRow personRowExample ["Feature.AGE"]],
       ∃ r0 ∈ [personRowExample], r = restrictRow r0 ["Feature.AGE"]) :=
  c9_filter_postcondition [personRowExample] ["Feature.AGE"]
    [restrictRow personRowExample ["Feature.AGE"]] (by decide) (by rfl)

/-- C10: on success `filter_features` returns a seed and a markov time series
that are mutually consistent: every returned individual occurs in the
returned diaries once their daytype and time-of-day levels are dropped, and
every individual of the returned diaries occurs in the returned seed. -/
theorem c10_filter_features_mutually_consistent {V : Type} (seed : List (PersonRow V))
    (markov_ts : List (DiaryRow V)) (features : List String)
    (outSeed : List (PersonRow V)) (outMarkov : List (DiaryRow V))
    (hok : filter_features seed markov_ts features = Except.ok (outSeed, outMarkov)) :
    (∀ r ∈ outSeed, ∃ d ∈ outMarkov, d.indiv = r.key) ∧
    (∀ d ∈ outMarkov, ∃ r ∈ outSeed, r.key = d.indiv) := by
  unfold filter_features at hok
  cases hseed : filter_features_and_drop_nan seed features with
  | error e =>
    rw [hseed] at hok
    cases hok
  | ok seed2 =>
    rw [hseed] at hok
    simp only [bind, Except.bind, pure, Except.pure, Except.ok.injEq, Prod.mk.injEq] at hok
    obtain ⟨hs, hm⟩ := hok
    subst hs
    subst hm
    constructor
    · intro r hr
      rcases List.mem_filter.mp hr with ⟨-, hin⟩
      rcases List.mem_map.mp (of_decide_eq_true hin) with ⟨d, hd, hdk⟩
      exact ⟨d, hd, hdk⟩
    · intro d hd
      have hd2 := hd
      rcases List.mem_filter.mp hd2 with ⟨-, hin⟩
      rcases List.mem_map.mp (of_decide_eq_true hin) with ⟨r, hr, hrk⟩
      refine ⟨r, List.mem_filter.mpr ⟨hr, decide_eq_true ?_⟩, hrk⟩
      exact List.mem_map.mpr ⟨d, hd, hrk.symm⟩

/-- Witness for C10 at concrete inputs: one fully valued individual with one
diary row passes the pipeline and the two outputs agree on the individual. -/
theorem c10_witness :
    (∀ r ∈ [restrictRow personRowExample ["Feature.AGE"]],
       ∃ d ∈ [diaryRowExample], d.indiv = r.key) ∧
    (∀ d ∈ [diaryRowExample],
       ∃ r ∈ [restrictRow personRowExample ["Feature.AGE"]], r.key = d.indiv) :=
  c10_filter_features_mutually_consistent [personRowExample] [diaryRowExample]
    ["Feature.AGE"] [restrictRow personRowExample ["Feature.AGE"]] [diaryRowExample]
    (by rfl)
